import Mathlib

/- Verification of the actuarial calculation engine of the astha_v2 repository
   (app/utils/calculations.py, with the duplicated calculator in app/main.py).

   Modelling conventions:
   - Python ints and floats are modelled as exact rationals (ℚ).
   - Python scalar division raises ZeroDivisionError on a zero divisor; code
     paths that divide scalars are therefore embedded in Except PyErr.
   - numpy array division does not raise: it yields IEEE special values
     (inf, -inf, nan); numpy array elements are modelled by NpVal below.
   - Decimal literals of the source (1.15, 0.85, ...) are written as the exact
     rationals 115/100, 85/100, ... . -/

namespace Astha

/-- Python exceptions that the embedded code can raise. -/
inductive PyErr where
  | zeroDivision
  | typeError
  | valueError
  deriving DecidableEq

/-- One entry of the `projections` list built by
`LiabilityCalculator.calculate_total_liability` (a Python dict with the five
keys 'tahun', 'biaya_per_jemaah', 'jemaah', 'total_biaya', 'present_value'). -/
structure Projection where
  tahun : ℕ
  biaya_per_jemaah : ℚ
  jemaah : ℚ
  total_biaya : ℚ
  present_value : ℚ
  deriving DecidableEq

namespace UtilsCalculations

/-- The body of the `for t in range(1, tahun_proyeksi + 1)` loop of
`calculate_total_liability` (app/utils/calculations.py lines 27-45), with the
running accumulator `total_liability` and the growing `projections` list made
explicit.  The Python expression `x / (1 + tingkat_diskonto/100)**t` raises
ZeroDivisionError when the denominator is zero, hence the Except. -/
def liabilityLoop (inflasi_saudi biaya_awal tingkat_diskonto depresiasi_rupiah
    jemaah_per_tahun : ℚ) :
    List ℕ → ℚ → List Projection → Except PyErr (ℚ × List Projection)
  | [], total_liability, projections => .ok (total_liability, projections)
  | t :: ts, total_liability, projections =>
    let biaya_tahun_t := biaya_awal * (1 + inflasi_saudi / 100) ^ t *
      (1 + depresiasi_rupiah / 100) ^ t
    if (1 + tingkat_diskonto / 100) ^ t = 0 then
      .error .zeroDivision
    else
      let present_value := biaya_tahun_t * jemaah_per_tahun /
        (1 + tingkat_diskonto / 100) ^ t
      liabilityLoop inflasi_saudi biaya_awal tingkat_diskonto depresiasi_rupiah
        jemaah_per_tahun ts (total_liability + present_value)
        (projections ++ [{ tahun := 2025 + t,
                           biaya_per_jemaah := biaya_tahun_t,
                           jemaah := jemaah_per_tahun,
                           total_biaya := biaya_tahun_t * jemaah_per_tahun,
                           present_value := present_value }])

/-- `LiabilityCalculator.calculate_total_liability` of
app/utils/calculations.py (lines 9-47).  `jemaah_per_tahun = total_jemaah /
tahun_proyeksi` raises ZeroDivisionError when `tahun_proyeksi == 0`; it is
evaluated before the loop.  `range(1, tahun_proyeksi + 1)` is the list
[1, ..., tahun_proyeksi], empty when `tahun_proyeksi < 0`. -/
def calculate_total_liability (total_jemaah inflasi_saudi kurs_usd biaya_awal
    tingkat_diskonto : ℚ) (tahun_proyeksi : ℤ) (depresiasi_rupiah : ℚ) :
    Except PyErr (ℚ × List Projection) :=
  if tahun_proyeksi = 0 then .error .zeroDivision
  else
    let jemaah_per_tahun := total_jemaah / (tahun_proyeksi : ℚ)
    liabilityLoop inflasi_saudi biaya_awal tingkat_diskonto depresiasi_rupiah
      jemaah_per_tahun ((List.range tahun_proyeksi.toNat).map (· + 1)) 0 []

/-- Closed form of the nominal cost `biaya_tahun_t` computed in year t. -/
def biayaTahun (biaya_awal inflasi_saudi depresiasi_rupiah : ℚ) (t : ℕ) : ℚ :=
  biaya_awal * (1 + inflasi_saudi / 100) ^ t * (1 + depresiasi_rupiah / 100) ^ t

/-- Closed form of the present value computed in year t. -/
def presentValueAt (biaya_awal inflasi_saudi depresiasi_rupiah tingkat_diskonto
    jemaah_per_tahun : ℚ) (t : ℕ) : ℚ :=
  biayaTahun biaya_awal inflasi_saudi depresiasi_rupiah t * jemaah_per_tahun /
    (1 + tingkat_diskonto / 100) ^ t

/-- Closed form of the projection entry appended in year t. -/
def projectionAt (biaya_awal inflasi_saudi depresiasi_rupiah tingkat_diskonto
    jemaah_per_tahun : ℚ) (t : ℕ) : Projection :=
  { tahun := 2025 + t,
    biaya_per_jemaah := biayaTahun biaya_awal inflasi_saudi depresiasi_rupiah t,
    jemaah := jemaah_per_tahun,
    total_biaya := biayaTahun biaya_awal inflasi_saudi depresiasi_rupiah t *
      jemaah_per_tahun,
    present_value := presentValueAt biaya_awal inflasi_saudi depresiasi_rupiah
      tingkat_diskonto jemaah_per_tahun t }

theorem liabilityLoop_eq (inflasi_saudi biaya_awal tingkat_diskonto
    depresiasi_rupiah jemaah_per_tahun : ℚ)
    (hden : (1 : ℚ) + tingkat_diskonto / 100 ≠ 0) :
    ∀ (ts : List ℕ) (total : ℚ) (projs : List Projection),
    liabilityLoop inflasi_saudi biaya_awal tingkat_diskonto depresiasi_rupiah
        jemaah_per_tahun ts total projs =
      .ok (total + (ts.map (presentValueAt biaya_awal inflasi_saudi
              depresiasi_rupiah tingkat_diskonto jemaah_per_tahun)).sum,
           projs ++ ts.map (projectionAt biaya_awal inflasi_saudi
              depresiasi_rupiah tingkat_diskonto jemaah_per_tahun)) := by
  intro ts
  induction ts with
  | nil => intro total projs; simp [liabilityLoop]
  | cons t ts ih =>
    intro total projs
    rw [liabilityLoop]
    rw [if_neg (pow_ne_zero t hden)]
    rw [ih]
    simp [projectionAt, presentValueAt, biayaTahun, add_assoc]

theorem calculate_total_liability_eq (total_jemaah inflasi_saudi kurs_usd
    biaya_awal tingkat_diskonto : ℚ) (tahun_proyeksi : ℤ) (depresiasi_rupiah : ℚ)
    (hn : 1 ≤ tahun_proyeksi)
    (hden : (1 : ℚ) + tingkat_diskonto / 100 ≠ 0) :
    calculate_total_liability total_jemaah inflasi_saudi kurs_usd biaya_awal
        tingkat_diskonto tahun_proyeksi depresiasi_rupiah =
      .ok ((((List.range tahun_proyeksi.toNat).map (· + 1)).map
              (presentValueAt biaya_awal inflasi_saudi depresiasi_rupiah
                tingkat_diskonto (total_jemaah / (tahun_proyeksi : ℚ)))).sum,
           ((List.range tahun_proyeksi.toNat).map (· + 1)).map
              (projectionAt biaya_awal inflasi_saudi depresiasi_rupiah
                tingkat_diskonto (total_jemaah / (tahun_proyeksi : ℚ)))) := by
  rw [calculate_total_liability, if_neg (by omega : ¬ tahun_proyeksi = 0)]
  rw [liabilityLoop_eq _ _ _ _ _ hden]
  simp

/-- Pointwise strictly smaller summands give a strictly smaller list sum. -/
theorem sum_map_lt_sum_map {f g : ℕ → ℚ} :
    ∀ l : List ℕ, l ≠ [] → (∀ x ∈ l, f x < g x) →
      (l.map f).sum < (l.map g).sum := by
  intro l
  induction l with
  | nil => intro h; exact absurd rfl h
  | cons a l ih =>
    intro _ h
    cases l with
    | nil => simpa using h a (by simp)
    | cons b m =>
      simp only [List.map_cons, List.sum_cons]
      exact add_lt_add (h a (by simp))
        (by simpa using ih (by simp) (fun x hx => h x (List.mem_cons_of_mem a hx)))

/-- C1: for projection_years ≥ 1 (and a positive discount rate, as the data
model requires), calculate_total_liability returns exactly projection_years
entries; the k-th entry (0-based) is for year t = k+1 and carries year 2025+t,
nominal cost C_t = biaya_awal·(1+inflasi/100)^t·(1+depresiasi/100)^t, pilgrims
J = total_jemaah/tahun_proyeksi, present value C_t·J/(1+diskonto/100)^t, and
the returned total equals the sum of the present values of all entries. -/
theorem C1_projection_schedule (total_jemaah inflasi_saudi kurs_usd biaya_awal
    tingkat_diskonto : ℚ) (tahun_proyeksi : ℤ) (depresiasi_rupiah : ℚ)
    (hn : 1 ≤ tahun_proyeksi) (hd : 0 < tingkat_diskonto) :
    ∀ (total_liability : ℚ) (projections : List Projection),
      calculate_total_liability total_jemaah inflasi_saudi kurs_usd biaya_awal
          tingkat_diskonto tahun_proyeksi depresiasi_rupiah =
        .ok (total_liability, projections) →
      (projections.length : ℤ) = tahun_proyeksi ∧
      projections = (List.range tahun_proyeksi.toNat).map (fun k =>
        { tahun := 2025 + (k + 1),
          biaya_per_jemaah := biaya_awal * (1 + inflasi_saudi / 100) ^ (k + 1) *
            (1 + depresiasi_rupiah / 100) ^ (k + 1),
          jemaah := total_jemaah / (tahun_proyeksi : ℚ),
          total_biaya := biaya_awal * (1 + inflasi_saudi / 100) ^ (k + 1) *
            (1 + depresiasi_rupiah / 100) ^ (k + 1) *
            (total_jemaah / (tahun_proyeksi : ℚ)),
          present_value := biaya_awal * (1 + inflasi_saudi / 100) ^ (k + 1) *
            (1 + depresiasi_rupiah / 100) ^ (k + 1) *
            (total_jemaah / (tahun_proyeksi : ℚ)) /
            (1 + tingkat_diskonto / 100) ^ (k + 1) }) ∧
      total_liability = (projections.map Projection.present_value).sum := by
  intro total_liability projections hok
  have hden : (1 : ℚ) + tingkat_diskonto / 100 ≠ 0 :=
    ne_of_gt (by linarith : (0 : ℚ) < 1 + tingkat_diskonto / 100)
  rw [calculate_total_liability_eq _ _ _ _ _ _ _ hn hden] at hok
  have hpair := Except.ok.inj hok
  have h1 : projections = ((List.range tahun_proyeksi.toNat).map (· + 1)).map
      (projectionAt biaya_awal inflasi_saudi depresiasi_rupiah tingkat_diskonto
        (total_jemaah / (tahun_proyeksi : ℚ))) :=
    (congrArg Prod.snd hpair).symm
  have h2 : total_liability =
      (((List.range tahun_proyeksi.toNat).map (· + 1)).map
        (presentValueAt biaya_awal inflasi_saudi depresiasi_rupiah
          tingkat_diskonto (total_jemaah / (tahun_proyeksi : ℚ)))).sum :=
    (congrArg Prod.fst hpair).symm
  refine ⟨?_, ?_, ?_⟩
  · rw [h1]
    simp only [List.length_map, List.length_range]
    exact Int.toNat_of_nonneg (by omega)
  · rw [h1]
    simp only [List.map_map]
    rfl
  · rw [h2, h1]
    simp only [List.map_map]
    rfl

/-- Witness for C1 at total_jemaah = 2, inflasi = 0, kurs = 1, biaya = 1,
diskonto = 100, tahun_proyeksi = 1, depresiasi = 0. -/
theorem C1_projection_schedule_witness :
    (([({ tahun := 2026, biaya_per_jemaah := 1, jemaah := 2, total_biaya := 2,
          present_value := 1 } : Projection)] : List Projection).length : ℤ) = 1 ∧
    ([({ tahun := 2026, biaya_per_jemaah := 1, jemaah := 2, total_biaya := 2,
          present_value := 1 } : Projection)] : List Projection) =
      (List.range (1 : ℤ).toNat).map (fun k =>
        { tahun := 2025 + (k + 1),
          biaya_per_jemaah := 1 * (1 + (0 : ℚ) / 100) ^ (k + 1) *
            (1 + (0 : ℚ) / 100) ^ (k + 1),
          jemaah := 2 / ((1 : ℤ) : ℚ),
          total_biaya := 1 * (1 + (0 : ℚ) / 100) ^ (k + 1) *
            (1 + (0 : ℚ) / 100) ^ (k + 1) * (2 / ((1 : ℤ) : ℚ)),
          present_value := 1 * (1 + (0 : ℚ) / 100) ^ (k + 1) *
            (1 + (0 : ℚ) / 100) ^ (k + 1) * (2 / ((1 : ℤ) : ℚ)) /
            (1 + (100 : ℚ) / 100) ^ (k + 1) }) ∧
    (1 : ℚ) =
      (([({ tahun := 2026, biaya_per_jemaah := 1, jemaah := 2,
            total_biaya := 2, present_value := 1 } : Projection)] :
              List Projection).map Projection.present_value).sum :=
  C1_projection_schedule 2 0 1 1 100 1 0 (by decide) (by norm_num) 1
    [{ tahun := 2026, biaya_per_jemaah := 1, jemaah := 2, total_biaya := 2,
       present_value := 1 }]
    (by norm_num [calculate_total_liability, liabilityLoop, List.range_succ,
          List.range_zero])

/-- C2 counterexample: with tahun_proyeksi = -1 (a non-positive value) the
function does not fail with an invalid-input error; it silently returns a
zero liability and an empty projection list. -/
theorem C2_counterexample :
    calculate_total_liability 1000 (7 / 2) 15500 94482028 (13 / 2) (-1) 3 =
      .ok (0, []) := by
  norm_num [calculate_total_liability, liabilityLoop]

/-- C2 amended: calculate_total_liability performs no input validation.  With
tahun_proyeksi = 0 the division total_jemaah / tahun_proyeksi raises a
ZeroDivisionError (a division error, not an invalid-parameter check); with
negative tahun_proyeksi it silently returns (0, []); non-positive
total_jemaah and biaya_awal (and a zero tingkat_diskonto) are accepted and
produce a normal result. -/
theorem C2_no_input_validation :
    (∀ total_jemaah inflasi_saudi kurs_usd biaya_awal tingkat_diskonto
        depresiasi_rupiah : ℚ,
      calculate_total_liability total_jemaah inflasi_saudi kurs_usd biaya_awal
        tingkat_diskonto 0 depresiasi_rupiah = .error .zeroDivision) ∧
    (∀ (total_jemaah inflasi_saudi kurs_usd biaya_awal tingkat_diskonto : ℚ)
        (tahun_proyeksi : ℤ) (depresiasi_rupiah : ℚ),
      tahun_proyeksi < 0 →
      calculate_total_liability total_jemaah inflasi_saudi kurs_usd biaya_awal
        tingkat_diskonto tahun_proyeksi depresiasi_rupiah = .ok (0, [])) ∧
    calculate_total_liability (-5) 0 15500 (-1) 0 2 0 =
      .ok (5, [{ tahun := 2026, biaya_per_jemaah := -1, jemaah := -5 / 2,
                 total_biaya := 5 / 2, present_value := 5 / 2 },
               { tahun := 2027, biaya_per_jemaah := -1, jemaah := -5 / 2,
                 total_biaya := 5 / 2, present_value := 5 / 2 }]) := by
  refine ⟨fun _ _ _ _ _ _ => rfl, ?_, ?_⟩
  · intro total_jemaah inflasi_saudi kurs_usd biaya_awal tingkat_diskonto
      tahun_proyeksi depresiasi_rupiah hneg
    rw [calculate_total_liability, if_neg (by omega : ¬ tahun_proyeksi = 0)]
    rw [Int.toNat_of_nonpos (le_of_lt hneg)]
    simp [liabilityLoop]
  · norm_num [calculate_total_liability, liabilityLoop, List.range_succ,
      List.range_zero]

/-- Witness for C2_no_input_validation at tahun_proyeksi = -3. -/
theorem C2_no_input_validation_witness :
    calculate_total_liability 7 1 1 1 1 (-3) 1 = .ok (0, []) :=
  C2_no_input_validation.2.1 7 1 1 1 1 (-3) 1 (by decide)

/-- C6: with positive total_jemaah and biaya_awal, tahun_proyeksi ≥ 1 and
nonnegative inflation and depreciation rates (the data-model ranges), the
total liability is strictly decreasing in the discount rate: 0 < d1 < d2
implies the total computed with d2 is strictly below the one with d1. -/
theorem C6_discount_monotone (total_jemaah inflasi_saudi kurs_usd biaya_awal
    d1 d2 : ℚ) (tahun_proyeksi : ℤ) (depresiasi_rupiah : ℚ)
    (htj : 0 < total_jemaah) (hb : 0 < biaya_awal) (hn : 1 ≤ tahun_proyeksi)
    (hi : 0 ≤ inflasi_saudi) (hdep : 0 ≤ depresiasi_rupiah)
    (hd1 : 0 < d1) (h12 : d1 < d2) :
    ∀ (L1 L2 : ℚ) (P1 P2 : List Projection),
      calculate_total_liability total_jemaah inflasi_saudi kurs_usd biaya_awal
          d1 tahun_proyeksi depresiasi_rupiah = .ok (L1, P1) →
      calculate_total_liability total_jemaah inflasi_saudi kurs_usd biaya_awal
          d2 tahun_proyeksi depresiasi_rupiah = .ok (L2, P2) →
      L2 < L1 := by
  intro L1 L2 P1 P2 h1 h2
  have hden1 : (1 : ℚ) + d1 / 100 ≠ 0 :=
    ne_of_gt (by linarith : (0 : ℚ) < 1 + d1 / 100)
  have hden2 : (1 : ℚ) + d2 / 100 ≠ 0 :=
    ne_of_gt (by linarith : (0 : ℚ) < 1 + d2 / 100)
  rw [calculate_total_liability_eq _ _ _ _ _ _ _ hn hden1] at h1
  rw [calculate_total_liability_eq _ _ _ _ _ _ _ hn hden2] at h2
  have e1 : L1 = (((List.range tahun_proyeksi.toNat).map (· + 1)).map
      (presentValueAt biaya_awal inflasi_saudi depresiasi_rupiah d1
        (total_jemaah / (tahun_proyeksi : ℚ)))).sum :=
    (congrArg Prod.fst (Except.ok.inj h1)).symm
  have e2 : L2 = (((List.range tahun_proyeksi.toNat).map (· + 1)).map
      (presentValueAt biaya_awal inflasi_saudi depresiasi_rupiah d2
        (total_jemaah / (tahun_proyeksi : ℚ)))).sum :=
    (congrArg Prod.fst (Except.ok.inj h2)).symm
  rw [e1, e2]
  have hnn : (0 : ℚ) < (tahun_proyeksi : ℚ) := by
    exact_mod_cast (by omega : (0 : ℤ) < tahun_proyeksi)
  have hJ : 0 < total_jemaah / (tahun_proyeksi : ℚ) := div_pos htj hnn
  apply sum_map_lt_sum_map
  · have hlen : ((List.range tahun_proyeksi.toNat).map (· + 1)).length =
        tahun_proyeksi.toNat := by simp
    intro hnil
    rw [hnil] at hlen
    simp at hlen
    omega
  · intro t ht
    obtain ⟨k, _, rfl⟩ := List.mem_map.mp ht
    have htpos : k + 1 ≠ 0 := Nat.succ_ne_zero k
    have hbase1 : (0 : ℚ) < 1 + d1 / 100 := by linarith
    have hN : 0 < biayaTahun biaya_awal inflasi_saudi depresiasi_rupiah (k + 1) *
        (total_jemaah / (tahun_proyeksi : ℚ)) := by
      apply mul_pos _ hJ
      apply mul_pos (mul_pos hb _)
      · positivity
      · positivity
    have hpow : (1 + d1 / 100) ^ (k + 1) < (1 + d2 / 100) ^ (k + 1) :=
      pow_lt_pow_left₀ (by linarith) (le_of_lt hbase1) htpos
    have := div_lt_div_of_pos_left hN (pow_pos hbase1 (k + 1)) hpow
    simpa [presentValueAt] using this

/-- Witness for C6: at d1 = 100 and d2 = 300 with one projection year,
the liability drops from 1 to 1/2. -/
theorem C6_discount_monotone_witness : (1 / 2 : ℚ) < 1 :=
  C6_discount_monotone 2 0 1 1 100 300 1 0 (by norm_num) (by norm_num)
    (by decide) le_rfl le_rfl (by norm_num) (by norm_num) 1 (1 / 2)
    [{ tahun := 2026, biaya_per_jemaah := 1, jemaah := 2, total_biaya := 2,
       present_value := 1 }]
    [{ tahun := 2026, biaya_per_jemaah := 1, jemaah := 2, total_biaya := 2,
       present_value := 1 / 2 }]
    (by norm_num [calculate_total_liability, liabilityLoop, List.range_succ,
          List.range_zero])
    (by norm_num [calculate_total_liability, liabilityLoop, List.range_succ,
          List.range_zero])

/-- C8: the kurs_usd argument has no influence on the result of
calculate_total_liability: two calls differing only in kurs_usd return the
same total liability and the same projection sequence. -/
theorem C8_kurs_usd_unused (total_jemaah inflasi_saudi kurs1 kurs2 biaya_awal
    tingkat_diskonto : ℚ) (tahun_proyeksi : ℤ) (depresiasi_rupiah : ℚ) :
    calculate_total_liability total_jemaah inflasi_saudi kurs1 biaya_awal
        tingkat_diskonto tahun_proyeksi depresiasi_rupiah =
      calculate_total_liability total_jemaah inflasi_saudi kurs2 biaya_awal
        tingkat_diskonto tahun_proyeksi depresiasi_rupiah := rfl

end UtilsCalculations

namespace StressTestEngine

/-- One entry of the `scenarios` dict of `run_stress_scenarios`
(app/utils/calculations.py lines 82-108): the dict key and the three values. -/
structure Scenario where
  name : String
  liability_mult : ℚ
  asset_mult : ℚ
  description : String

/-- The five scenarios, in the insertion order of the Python dict (Python
dicts iterate in insertion order). -/
def scenarios : List Scenario :=
  [{ name := "Skenario Dasar", liability_mult := 1, asset_mult := 1,
     description := "Kondisi normal tanpa shock eksternal" },
   { name := "Resesi Global", liability_mult := 115 / 100,
     asset_mult := 85 / 100,
     description := "Imbal hasil investasi turun, biaya naik" },
   { name := "Depresiasi Rupiah Ekstrem", liability_mult := 145 / 100,
     asset_mult := 95 / 100,
     description := "Rupiah melemah 30% dalam 2 tahun" },
   { name := "Inflasi Saudi Tinggi", liability_mult := 125 / 100,
     asset_mult := 102 / 100,
     description := "Inflasi Saudi mencapai 8% per tahun" },
   { name := "Shock Ganda", liability_mult := 160 / 100,
     asset_mult := 80 / 100,
     description := "Kombinasi resesi + depresiasi + inflasi" }]

/-- One result dict appended by `run_stress_scenarios`.  The `solvency` field
embeds the dict entry named `solvency_ratio` in the source. -/
structure StressResult where
  scenario : String
  description : String
  assets : ℚ
  liability : ℚ
  solvency : ℚ
  status : String
  deriving DecidableEq

/-- The chained conditional of lines 116-117:
`"Aman" if solvency_ratio >= 1.2 else "Waspada" if solvency_ratio >= 1.0 else
"Risiko Tinggi"`. -/
def statusOf (ratio : ℚ) : String :=
  if ratio ≥ 12 / 10 then "Aman"
  else if ratio ≥ 1 then "Waspada"
  else "Risiko Tinggi"

/-- One iteration of the `for scenario_name, params in scenarios.items()` loop
(lines 111-126).  `scenario_assets / scenario_liability` is Python scalar
division and raises ZeroDivisionError on a zero denominator. -/
def runScenario (base_assets base_liability : ℚ) (s : Scenario) :
    Except PyErr StressResult :=
  let scenario_liability := base_liability * s.liability_mult
  let scenario_assets := base_assets * s.asset_mult
  if scenario_liability = 0 then .error .zeroDivision
  else
    .ok { scenario := s.name,
          description := s.description,
          assets := scenario_assets,
          liability := scenario_liability,
          solvency := scenario_assets / scenario_liability,
          status := statusOf (scenario_assets / scenario_liability) }

/-- The loop of `run_stress_scenarios`, with the growing `results` list made
explicit; an exception aborts the remaining iterations. -/
def runStressLoop (base_assets base_liability : ℚ) :
    List Scenario → List StressResult → Except PyErr (List StressResult)
  | [], results => .ok results
  | s :: ss, results =>
    match runScenario base_assets base_liability s with
    | .error e => .error e
    | .ok r => runStressLoop base_assets base_liability ss (results ++ [r])

/-- `StressTestEngine.run_stress_scenarios` of app/utils/calculations.py
(lines 80-128). -/
def run_stress_scenarios (base_assets base_liability : ℚ) :
    Except PyErr (List StressResult) :=
  runStressLoop base_assets base_liability scenarios []

theorem statusOf_spec (q : ℚ) :
    (statusOf q = "Aman" ↔ 12 / 10 ≤ q) ∧
    (statusOf q = "Waspada" ↔ 1 ≤ q ∧ q < 12 / 10) ∧
    (statusOf q = "Risiko Tinggi" ↔ q < 1) := by
  unfold statusOf
  split_ifs with h1 h2
  · exact ⟨iff_of_true rfl h1,
      iff_of_false (by decide) (fun hh => absurd h1 (not_le.mpr hh.2)),
      iff_of_false (by decide) (not_lt.mpr (by linarith))⟩
  · exact ⟨iff_of_false (by decide) h1,
      iff_of_true rfl ⟨h2, not_le.mp h1⟩,
      iff_of_false (by decide) (not_lt.mpr h2)⟩
  · exact ⟨iff_of_false (by decide) h1,
      iff_of_false (by decide) (fun hh => absurd hh.1 h2),
      iff_of_true rfl (not_le.mp h2)⟩

theorem runStressLoop_mem (base_assets base_liability : ℚ) :
    ∀ (ss : List Scenario) (acc res : List StressResult),
      runStressLoop base_assets base_liability ss acc = .ok res →
      ∀ r ∈ res, r ∈ acc ∨
        ∃ s ∈ ss, runScenario base_assets base_liability s = .ok r := by
  intro ss
  induction ss with
  | nil =>
    intro acc res hok r hr
    exact Or.inl ((Except.ok.inj hok) ▸ hr)
  | cons s ss ih =>
    intro acc res hok r hr
    rw [runStressLoop] at hok
    cases hsc : runScenario base_assets base_liability s with
    | error e => rw [hsc] at hok; cases hok
    | ok r' =>
      rw [hsc] at hok
      rcases ih (acc ++ [r']) res hok r hr with hacc | ⟨s', hs', hr'⟩
      · rcases List.mem_append.mp hacc with h | h
        · exact Or.inl h
        · refine Or.inr ⟨s, List.mem_cons_self s ss, ?_⟩
          rw [hsc, List.mem_singleton.mp h]
      · exact Or.inr ⟨s', List.mem_cons_of_mem s hs', hr'⟩

/-- C5: every result produced by run_stress_scenarios has its status
determined exactly by the solvency ratio: "Aman" (Safe) iff ratio ≥ 1.2,
"Waspada" (Caution) iff 1.0 ≤ ratio < 1.2, and "Risiko Tinggi" (High Risk)
iff ratio < 1.0. -/
theorem C5_status_thresholds (base_assets base_liability : ℚ)
    (res : List StressResult)
    (hok : run_stress_scenarios base_assets base_liability = .ok res)
    (r : StressResult) (hr : r ∈ res) :
    (r.status = "Aman" ↔ 12 / 10 ≤ StressResult.solvency r) ∧
    (r.status = "Waspada" ↔
      1 ≤ StressResult.solvency r ∧ StressResult.solvency r < 12 / 10) ∧
    (r.status = "Risiko Tinggi" ↔ StressResult.solvency r < 1) := by
  rcases runStressLoop_mem base_assets base_liability scenarios [] res hok r hr
    with hacc | ⟨s, _, hs⟩
  · cases hacc
  · unfold runScenario at hs
    by_cases hz : base_liability * s.liability_mult = 0
    · rw [if_pos hz] at hs; cases hs
    · rw [if_neg hz] at hs
      have hr' := Except.ok.inj hs
      rw [← hr']
      exact statusOf_spec _

/-- Witness for C5 at base_assets = 3, base_liability = 2, on the first
returned result (the base scenario, ratio 3/2, status "Aman"). -/
theorem C5_status_thresholds_witness :
    (({ scenario := "Skenario Dasar",
        description := "Kondisi normal tanpa shock eksternal",
        assets := 3, liability := 2, solvency := 3 / 2,
        status := "Aman" } : StressResult).status = "Aman" ↔
      12 / 10 ≤ StressResult.solvency
        { scenario := "Skenario Dasar",
          description := "Kondisi normal tanpa shock eksternal",
          assets := 3, liability := 2, solvency := 3 / 2,
          status := "Aman" }) ∧
    (({ scenario := "Skenario Dasar",
        description := "Kondisi normal tanpa shock eksternal",
        assets := 3, liability := 2, solvency := 3 / 2,
        status := "Aman" } : StressResult).status = "Waspada" ↔
      1 ≤ StressResult.solvency
        { scenario := "Skenario Dasar",
          description := "Kondisi normal tanpa shock eksternal",
          assets := 3, liability := 2, solvency := 3 / 2,
          status := "Aman" } ∧
      StressResult.solvency
        { scenario := "Skenario Dasar",
          description := "Kondisi normal tanpa shock eksternal",
          assets := 3, liability := 2, solvency := 3 / 2,
          status := "Aman" } < 12 / 10) ∧
    (({ scenario := "Skenario Dasar",
        description := "Kondisi normal tanpa shock eksternal",
        assets := 3, liability := 2, solvency := 3 / 2,
        status := "Aman" } : StressResult).status = "Risiko Tinggi" ↔
      StressResult.solvency
        { scenario := "Skenario Dasar",
          description := "Kondisi normal tanpa shock eksternal",
          assets := 3, liability := 2, solvency := 3 / 2,
          status := "Aman" } < 1) :=
  C5_status_thresholds 3 2
    [{ scenario := "Skenario Dasar",
       description := "Kondisi normal tanpa shock eksternal",
       assets := 3, liability := 2, solvency := 3 / 2, status := "Aman" },
     { scenario := "Resesi Global",
       description := "Imbal hasil investasi turun, biaya naik",
       assets := 51 / 20, liability := 23 / 10, solvency := 51 / 46,
       status := "Waspada" },
     { scenario := "Depresiasi Rupiah Ekstrem",
       description := "Rupiah melemah 30% dalam 2 tahun",
       assets := 57 / 20, liability := 29 / 10, solvency := 57 / 58,
       status := "Risiko Tinggi" },
     { scenario := "Inflasi Saudi Tinggi",
       description := "Inflasi Saudi mencapai 8% per tahun",
       assets := 153 / 50, liability := 5 / 2, solvency := 153 / 125,
       status := "Aman" },
     { scenario := "Shock Ganda",
       description := "Kombinasi resesi + depresiasi + inflasi",
       assets := 12 / 5, liability := 16 / 5, solvency := 3 / 4,
       status := "Risiko Tinggi" }]
    (by norm_num [run_stress_scenarios, runStressLoop, runScenario, scenarios,
          statusOf])
    { scenario := "Skenario Dasar",
      description := "Kondisi normal tanpa shock eksternal",
      assets := 3, liability := 2, solvency := 3 / 2, status := "Aman" }
    (by simp)

/-- C7: with a nonzero base liability, run_stress_scenarios succeeds and
returns exactly 5 results, named in the fixed catalog order, and the first
(base) scenario's solvency ratio is exactly base_assets / base_liability. -/
theorem C7_catalog_order (base_assets base_liability : ℚ)
    (hl : base_liability ≠ 0) :
    (run_stress_scenarios base_assets base_liability).toOption.map
        (fun res => (res.length, res.map StressResult.scenario,
          (res.map StressResult.solvency).head?)) =
      some (5, ["Skenario Dasar", "Resesi Global", "Depresiasi Rupiah Ekstrem",
        "Inflasi Saudi Tinggi", "Shock Ganda"],
        some (base_assets / base_liability)) := by
  simp [run_stress_scenarios, runStressLoop, runScenario, scenarios,
    mul_eq_zero, hl, Except.toOption]

/-- Witness for C7 at base_assets = 3, base_liability = 2. -/
theorem C7_catalog_order_witness :
    (run_stress_scenarios 3 2).toOption.map
        (fun res => (res.length, res.map StressResult.scenario,
          (res.map StressResult.solvency).head?)) =
      some (5, ["Skenario Dasar", "Resesi Global", "Depresiasi Rupiah Ekstrem",
        "Inflasi Saudi Tinggi", "Shock Ganda"], some ((3 : ℚ) / 2)) :=
  C7_catalog_order 3 2 (by norm_num)

end StressTestEngine

/-- A numpy float64 array element: a finite value (every finite float64 is a
rational), +inf, -inf, or nan.  numpy elementwise division by zero does not
raise: it produces these special values (with a RuntimeWarning). -/
inductive NpVal where
  | fin : ℚ → NpVal
  | inf : NpVal
  | neginf : NpVal
  | nan : NpVal
  deriving DecidableEq

/-- Whether a numpy value is an ordinary finite number. -/
def NpVal.isFinite : NpVal → Bool
  | .fin _ => true
  | _ => false

/-- numpy elementwise division of finite values: x/0 is +inf, -inf or nan
according to the sign of x (IEEE 754), never an exception. -/
def npDiv (x y : ℚ) : NpVal :=
  if y ≠ 0 then .fin (x / y)
  else if 0 < x then .inf
  else if x < 0 then .neginf
  else .nan

/-- IEEE addition on numpy values (inf + -inf = nan, nan absorbs). -/
def npAdd : NpVal → NpVal → NpVal
  | .nan, _ => .nan
  | _, .nan => .nan
  | .inf, .neginf => .nan
  | .neginf, .inf => .nan
  | .inf, _ => .inf
  | _, .inf => .inf
  | .neginf, _ => .neginf
  | _, .neginf => .neginf
  | .fin x, .fin y => .fin (x + y)

/-- IEEE negation. -/
def npNeg : NpVal → NpVal
  | .fin x => .fin (-x)
  | .inf => .neginf
  | .neginf => .inf
  | .nan => .nan

/-- IEEE subtraction (inf - inf = nan). -/
def npSub (a b : NpVal) : NpVal := npAdd a (npNeg b)

/-- IEEE squaring. -/
def npSq : NpVal → NpVal
  | .fin x => .fin (x * x)
  | .inf => .inf
  | .neginf => .inf
  | .nan => .nan

/-- Sum of a numpy array (np.sum semantics: IEEE fold from 0). -/
def npSum (l : List NpVal) : NpVal := l.foldl npAdd (.fin 0)

/-- Division of a reduction result by a positive sample count. -/
def npDivByNat : NpVal → ℕ → NpVal
  | .fin x, n => .fin (x / n)
  | .inf, _ => .inf
  | .neginf, _ => .neginf
  | .nan, _ => .nan

/-- np.mean: sum divided by length; nan on an empty array. -/
def npMean (l : List NpVal) : NpVal :=
  match l.length with
  | 0 => .nan
  | n + 1 => npDivByNat (npSum l) (n + 1)

/-- np.sqrt lifted to numpy values; sqrtFn is the (finite, nonnegative)
square-root function of the float implementation. -/
def npSqrtV (sqrtFn : ℚ → ℚ) : NpVal → NpVal
  | .fin x => if x < 0 then .nan else .fin (sqrtFn x)
  | .inf => .inf
  | .neginf => .nan
  | .nan => .nan

/-- np.std: square root of the mean squared deviation from the mean
(population standard deviation). -/
def npStd (sqrtFn : ℚ → ℚ) (l : List NpVal) : NpVal :=
  let m := npMean l
  npSqrtV sqrtFn (npMean (l.map (fun x => npSq (npSub x m))))

/-- Elementwise `>= 1.0` (numpy comparison: nan compares false). -/
def npGeOne : NpVal → Bool
  | .fin x => decide (1 ≤ x)
  | .inf => true
  | .neginf => false
  | .nan => false

/-- Mean of a boolean numpy array (True = 1.0); nan on an empty array. -/
def boolArrayMean (bs : List Bool) : NpVal :=
  match bs.length with
  | 0 => .nan
  | n + 1 => .fin ((bs.count true : ℚ) / ((n : ℚ) + 1))

/-- Multiplication by the positive scalar 100. -/
def npScale100 : NpVal → NpVal
  | .fin x => .fin (x * 100)
  | .inf => .inf
  | .neginf => .neginf
  | .nan => .nan

/-- Pairwise np.minimum (nan propagates). -/
def npMin2 : NpVal → NpVal → NpVal
  | .nan, _ => .nan
  | _, .nan => .nan
  | .neginf, _ => .neginf
  | _, .neginf => .neginf
  | .inf, b => b
  | a, .inf => a
  | .fin x, .fin y => .fin (min x y)

/-- Pairwise np.maximum (nan propagates). -/
def npMax2 : NpVal → NpVal → NpVal
  | .nan, _ => .nan
  | _, .nan => .nan
  | .inf, _ => .inf
  | _, .inf => .inf
  | .neginf, b => b
  | a, .neginf => a
  | .fin x, .fin y => .fin (max x y)

/-- np.min: reduction; raises ValueError on an empty array. -/
def npMinList : List NpVal → Except PyErr NpVal
  | [] => .error .valueError
  | x :: xs => .ok (xs.foldl npMin2 x)

/-- np.max: reduction; raises ValueError on an empty array. -/
def npMaxList : List NpVal → Except PyErr NpVal
  | [] => .error .valueError
  | x :: xs => .ok (xs.foldl npMax2 x)

namespace StressTestEngine

/-- The numpy primitives monte_carlo_simulation relies on, as an explicit
model: np.random.seed (maps a seed to a fresh global generator state),
np.random.normal (draws `size` float64 samples, every float64 being a
rational, and advances the state), and the finite square root used inside
np.std.  Quantifying over this structure quantifies over every conforming
pseudo-random generator and float implementation. -/
structure NumpyModel where
  seedFn : ℕ → ℕ
  normalFn : ℕ → ℚ → ℚ → ℕ → List ℚ × ℕ
  sqrtFn : ℚ → ℚ

/-- The results dict of monte_carlo_simulation. -/
structure MCResult where
  solvency_ratios : List NpVal
  mean_solvency : NpVal
  std_solvency : NpVal
  safe_probability : NpVal
  worst_case : NpVal
  best_case : NpVal
  deriving DecidableEq

/-- `StressTestEngine.monte_carlo_simulation` of app/utils/calculations.py
(lines 131-158).  `rng` is the global numpy generator state at call time; the
first statement `np.random.seed(42)` overwrites it.  The factor arrays are
`abs(normal(1.0, 0.15, n))` and `abs(normal(1.0, 0.10, n))`; the solvency
array is the elementwise numpy division
`(base_assets * asset_factors) / (base_liability * liability_factors)`,
which produces IEEE special values instead of raising.  np.min/np.max raise
ValueError on an empty array (n_simulations = 0). -/
def monte_carlo_simulation (npm : NumpyModel) (rng : ℕ)
    (base_assets base_liability : ℚ) (n_simulations : ℕ) :
    Except PyErr MCResult × ℕ :=
  let s0 := npm.seedFn 42
  let liability_res := npm.normalFn s0 1 (15 / 100) n_simulations
  let asset_res := npm.normalFn liability_res.2 1 (10 / 100) n_simulations
  let liability_factors := liability_res.1.map (fun x => |x|)
  let asset_factors := asset_res.1.map (fun x => |x|)
  let simulated_solvency := List.zipWith
    (fun af lf => npDiv (base_assets * af) (base_liability * lf))
    asset_factors liability_factors
  match npMinList simulated_solvency, npMaxList simulated_solvency with
  | .ok worst, .ok best =>
    (.ok { solvency_ratios := simulated_solvency,
           mean_solvency := npMean simulated_solvency,
           std_solvency := npStd npm.sqrtFn simulated_solvency,
           safe_probability :=
             npScale100 (boolArrayMean (simulated_solvency.map npGeOne)),
           worst_case := worst,
           best_case := best }, asset_res.2)
  | _, _ => (.error .valueError, asset_res.2)

/-- C4: monte_carlo_simulation is deterministic in its inputs: whatever the
ambient generator state was before the call, identical (base_assets,
base_liability, n_simulations) — the seed being the constant 42 — produce
identical results, including the full solvency_ratio sample sequence, mean,
standard deviation, safe probability, worst and best case. -/
theorem C4_monte_carlo_deterministic (npm : NumpyModel) (rng1 rng2 : ℕ)
    (base_assets base_liability : ℚ) (n_simulations : ℕ) :
    (monte_carlo_simulation npm rng1 base_assets base_liability
        n_simulations).1 =
      (monte_carlo_simulation npm rng2 base_assets base_liability
        n_simulations).1 := rfl

/-- Every element of a zipWith is the image of some pair of elements. -/
theorem eq_of_mem_zipWith {α β γ : Type} (f : α → β → γ) :
    ∀ (xs : List α) (ys : List β) (c : γ),
      c ∈ List.zipWith f xs ys → ∃ x y, c = f x y := by
  intro xs
  induction xs with
  | nil => intro ys c h; simp at h
  | cons x xs ih =>
    intro ys c h
    cases ys with
    | nil => simp at h
    | cons y ys =>
      rw [List.zipWith_cons_cons] at h
      rcases List.mem_cons.mp h with h | h
      · exact ⟨x, y, h⟩
      · exact ih ys c h

/-- numpy division of a finite value by zero never yields a finite value. -/
theorem npDiv_zero_not_finite (x : ℚ) : (npDiv x 0).isFinite = false := by
  unfold npDiv
  split_ifs with h h1 h2
  · exact absurd rfl h
  · rfl
  · rfl
  · rfl

/-- C3 corrected: the two halves of the claim behave differently.
run_stress_scenarios with base_liability = 0 does signal a division error
(Python scalar division raises ZeroDivisionError on the first scenario), but
monte_carlo_simulation does not: whenever it returns a result with
base_liability = 0, every solvency-ratio sample is a silently produced
non-finite value (inf, -inf or nan), with no error signaled. -/
theorem C3_zero_liability_behavior :
    (∀ base_assets : ℚ,
      run_stress_scenarios base_assets 0 = .error .zeroDivision) ∧
    (∀ (npm : NumpyModel) (rng : ℕ) (base_assets : ℚ) (n_simulations : ℕ)
        (res : MCResult),
      (monte_carlo_simulation npm rng base_assets 0 n_simulations).1 =
        .ok res →
      ∀ r ∈ res.solvency_ratios, r.isFinite = false) := by
  constructor
  · intro base_assets
    norm_num [run_stress_scenarios, runStressLoop, runScenario, scenarios]
  · intro npm rng base_assets n_simulations res hok r hr
    simp only [monte_carlo_simulation] at hok
    split at hok
    · have hres := Except.ok.inj hok
      rw [← hres] at hr
      simp only at hr
      rcases eq_of_mem_zipWith _ _ _ _ hr with ⟨af, lf, rfl⟩
      rw [zero_mul]
      exact npDiv_zero_not_finite _
    · cases hok

/-- Witness for C3_zero_liability_behavior: concrete instances of both
conjuncts, at base_assets = 7 for the stress half and at the identity
generator model with unit draws, base_assets = 1, n = 1 for the Monte Carlo
half. -/
theorem C3_zero_liability_behavior_witness :
    run_stress_scenarios 7 0 = .error .zeroDivision ∧
    NpVal.isFinite NpVal.inf = false :=
  ⟨C3_zero_liability_behavior.1 7,
   C3_zero_liability_behavior.2
     ⟨fun s => s, fun s _ _ k => (List.replicate k 1, s), fun _ => 0⟩ 0 1 1
     { solvency_ratios := [NpVal.inf], mean_solvency := .inf,
       std_solvency := .nan, safe_probability := .fin 100,
       worst_case := .inf, best_case := .inf }
     (by norm_num [monte_carlo_simulation, npMinList, npMaxList, npDiv,
           npMean, npSum, npAdd, npDivByNat, npStd, npSqrtV, npSq, npSub,
           npNeg, boolArrayMean, npScale100, npGeOne, npMin2, npMax2,
           List.replicate])
     NpVal.inf (by simp)⟩

/-- C3 counterexample: monte_carlo_simulation called with base_liability = 0
(identity generator model, unit draws, base_assets = 1, one simulation) does
not signal a division error; it returns normally and its solvency-ratio
sample is the silently produced value +inf. -/
theorem C3_counterexample :
    ((monte_carlo_simulation
        ⟨fun s => s, fun s _ _ k => (List.replicate k 1, s), fun _ => 0⟩
        0 1 0 1).1).map MCResult.solvency_ratios = Except.ok [NpVal.inf] := by
  norm_num [monte_carlo_simulation, npMinList, npMaxList, npDiv, npMean,
    npSum, npAdd, npDivByNat, npStd, npSqrtV, npSq, npSub, npNeg,
    boolArrayMean, npScale100, npGeOne, npMin2, npMax2, List.replicate,
    Except.map]

end StressTestEngine

namespace AppMain

/-- The loop of the duplicated `LiabilityCalculator.calculate_total_liability`
in app/main.py (lines 242-280); the method body there is textually identical
to the one in app/utils/calculations.py, and is embedded here separately so
the two can be compared. -/
def liabilityLoop (inflasi_saudi biaya_awal tingkat_diskonto depresiasi_rupiah
    jemaah_per_tahun : ℚ) :
    List ℕ → ℚ → List Projection → Except PyErr (ℚ × List Projection)
  | [], total_liability, projections => .ok (total_liability, projections)
  | t :: ts, total_liability, projections =>
    let biaya_tahun_t := biaya_awal * (1 + inflasi_saudi / 100) ^ t *
      (1 + depresiasi_rupiah / 100) ^ t
    if (1 + tingkat_diskonto / 100) ^ t = 0 then
      .error .zeroDivision
    else
      let present_value := biaya_tahun_t * jemaah_per_tahun /
        (1 + tingkat_diskonto / 100) ^ t
      liabilityLoop inflasi_saudi biaya_awal tingkat_diskonto depresiasi_rupiah
        jemaah_per_tahun ts (total_liability + present_value)
        (projections ++ [{ tahun := 2025 + t,
                           biaya_per_jemaah := biaya_tahun_t,
                           jemaah := jemaah_per_tahun,
                           total_biaya := biaya_tahun_t * jemaah_per_tahun,
                           present_value := present_value }])

/-- The duplicated `LiabilityCalculator.calculate_total_liability` of
app/main.py (lines 242-280). -/
def calculate_total_liability (total_jemaah inflasi_saudi kurs_usd biaya_awal
    tingkat_diskonto : ℚ) (tahun_proyeksi : ℤ) (depresiasi_rupiah : ℚ) :
    Except PyErr (ℚ × List Projection) :=
  if tahun_proyeksi = 0 then .error .zeroDivision
  else
    let jemaah_per_tahun := total_jemaah / (tahun_proyeksi : ℚ)
    liabilityLoop inflasi_saudi biaya_awal tingkat_diskonto depresiasi_rupiah
      jemaah_per_tahun ((List.range tahun_proyeksi.toNat).map (· + 1)) 0 []

theorem liabilityLoop_agrees (inflasi_saudi biaya_awal tingkat_diskonto
    depresiasi_rupiah jemaah_per_tahun : ℚ) :
    ∀ (ts : List ℕ) (total : ℚ) (projs : List Projection),
      liabilityLoop inflasi_saudi biaya_awal tingkat_diskonto depresiasi_rupiah
          jemaah_per_tahun ts total projs =
        UtilsCalculations.liabilityLoop inflasi_saudi biaya_awal
          tingkat_diskonto depresiasi_rupiah jemaah_per_tahun ts total projs := by
  intro ts
  induction ts with
  | nil => intro total projs; rfl
  | cons t ts ih =>
    intro total projs
    rw [liabilityLoop, UtilsCalculations.liabilityLoop]
    by_cases hc : ((1 : ℚ) + tingkat_diskonto / 100) ^ t = 0
    · rw [if_pos hc, if_pos hc]
    · rw [if_neg hc, if_neg hc, ih]

end AppMain

/-- C9: the implementation of calculate_total_liability in
app/utils/calculations.py and its duplicate in app/main.py are extensionally
equal: on every input both return the same total liability and the same
projection sequence (including raising in the same cases). -/
theorem C9_duplicate_implementations_agree (total_jemaah inflasi_saudi
    kurs_usd biaya_awal tingkat_diskonto : ℚ) (tahun_proyeksi : ℤ)
    (depresiasi_rupiah : ℚ) :
    AppMain.calculate_total_liability total_jemaah inflasi_saudi kurs_usd
        biaya_awal tingkat_diskonto tahun_proyeksi depresiasi_rupiah =
      UtilsCalculations.calculate_total_liability total_jemaah inflasi_saudi
        kurs_usd biaya_awal tingkat_diskonto tahun_proyeksi
        depresiasi_rupiah := by
  rw [AppMain.calculate_total_liability,
    UtilsCalculations.calculate_total_liability]
  by_cases hz : tahun_proyeksi = 0
  · rw [if_pos hz, if_pos hz]
  · rw [if_neg hz, if_neg hz, AppMain.liabilityLoop_agrees]

namespace UtilsCalculations

/-- A Python dict with float values, as an association list in insertion
order. -/
abbrev PyDict := List (String × ℚ)

/-- `d[k] = v`: replace the value in place when the key exists, else append
(Python dict update semantics). -/
def dictSet : PyDict → String → ℚ → PyDict
  | [], k, v => [(k, v)]
  | (k', v') :: rest, k, v =>
    if k' = k then (k, v) :: rest else (k', v') :: dictSet rest k v

/-- Calling `LiabilityCalculator.calculate_total_liability(**params)` with a
keyword dict: the five required parameters must be present (else Python
raises TypeError), `tahun_proyeksi` defaults to 20 and must hold an integer
(`range` raises TypeError on a float), `depresiasi_rupiah` defaults to 3.0. -/
def calcFromDict (d : PyDict) : Except PyErr (ℚ × List Projection) :=
  match d.lookup "total_jemaah", d.lookup "inflasi_saudi",
      d.lookup "kurs_usd", d.lookup "biaya_awal",
      d.lookup "tingkat_diskonto" with
  | some total_jemaah, some inflasi_saudi, some kurs_usd, some biaya_awal,
      some tingkat_diskonto =>
    let tahun : ℚ := (d.lookup "tahun_proyeksi").getD 20
    let depresiasi_rupiah : ℚ := (d.lookup "depresiasi_rupiah").getD 3
    if tahun.den = 1 then
      calculate_total_liability total_jemaah inflasi_saudi kurs_usd biaya_awal
        tingkat_diskonto tahun.num depresiasi_rupiah
    else .error .typeError
  | _, _, _, _, _ => .error .typeError

/-- A heap object relevant to sensitivity_analysis: a parameter dict, the
sweep dict (name → ordered candidate values), or unallocated. -/
inductive PyObj where
  | dictQ : PyDict → PyObj
  | dictSweep : List (String × List ℚ) → PyObj
  | undef : PyObj

/-- The Python object heap: addresses 0..next-1 are allocated and visible to
the caller or to earlier iterations. -/
structure Heap where
  next : ℕ
  mem : ℕ → PyObj

/-- Allocate a fresh object (this is what `base_params.copy()` does). -/
def Heap.alloc (h : Heap) (v : PyObj) : ℕ × Heap :=
  (h.next, ⟨h.next + 1, fun a => if a = h.next then v else h.mem a⟩)

/-- Overwrite the object at an address (this is what `params[k] = v` does to
the dict object that `params` references). -/
def Heap.write (h : Heap) (addr : ℕ) (v : PyObj) : Heap :=
  ⟨h.next, fun a => if a = addr then v else h.mem a⟩

/-- One row of the sensitivity_analysis results list. -/
structure SensRow where
  parameter : String
  value : ℚ
  liability : ℚ
  change_percent : ℚ

/-- The inner `for value in param_values` loop of sensitivity_analysis
(app/utils/calculations.py lines 58-72): copy base_params into a freshly
allocated dict, override the swept key on the copy only, run the calculator
on the copy and on base_params, raise ZeroDivisionError when the base
liability is zero, and append a result row. -/
def sensInner (baseAddr : ℕ) (param_name : String) :
    List ℚ → Heap → List SensRow → Except PyErr (List SensRow) × Heap
  | [], h, results => (.ok results, h)
  | v :: vs, h, results =>
    match h.mem baseAddr with
    | .dictQ base_params =>
      let alloc_res := h.alloc (.dictQ base_params)
      let params := dictSet base_params param_name v
      let h2 := alloc_res.2.write alloc_res.1 (.dictQ params)
      match calcFromDict params with
      | .error e => (.error e, h2)
      | .ok liability_res =>
        match calcFromDict base_params with
        | .error e => (.error e, h2)
        | .ok base_res =>
          if base_res.1 = 0 then (.error .zeroDivision, h2)
          else
            sensInner baseAddr param_name vs h2
              (results ++
                [{ parameter := param_name, value := v,
                   liability := liability_res.1,
                   change_percent :=
                     (liability_res.1 - base_res.1) / base_res.1 * 100 }])
    | _ => (.error .typeError, h)

/-- The outer `for param_name, param_values in sensitivity_params.items()`
loop (line 57); an exception in an inner iteration aborts the rest. -/
def sensOuter (baseAddr : ℕ) :
    List (String × List ℚ) → Heap → List SensRow →
      Except PyErr (List SensRow) × Heap
  | [], h, results => (.ok results, h)
  | (param_name, param_values) :: rest, h, results =>
    match sensInner baseAddr param_name param_values h results with
    | (.ok results2, h2) => sensOuter baseAddr rest h2 results2
    | (.error e, h2) => (.error e, h2)

/-- `LiabilityCalculator.sensitivity_analysis` of app/utils/calculations.py
(lines 49-74), acting on heap-allocated argument dicts: `baseAddr` references
the caller's base_params dict and `sweepAddr` the caller's
sensitivity_params dict. -/
def sensitivity_analysis (h : Heap) (baseAddr sweepAddr : ℕ) :
    Except PyErr (List SensRow) × Heap :=
  match h.mem sweepAddr with
  | .dictSweep sweep => sensOuter baseAddr sweep h []
  | _ => (.error .typeError, h)

theorem sensInner_frame (baseAddr : ℕ) (param_name : String) :
    ∀ (vs : List ℚ) (h : Heap) (results : List SensRow),
      h.next ≤ (sensInner baseAddr param_name vs h results).2.next ∧
      ∀ a < h.next,
        (sensInner baseAddr param_name vs h results).2.mem a = h.mem a := by
  intro vs
  induction vs with
  | nil => intro h results; exact ⟨le_rfl, fun a _ => rfl⟩
  | cons v vs ih =>
    intro h results
    rw [sensInner]
    cases hbase : h.mem baseAddr with
    | dictQ base_params =>
      have hnext2 : ((h.alloc (.dictQ base_params)).2.write
          (h.alloc (.dictQ base_params)).1
          (.dictQ (dictSet base_params param_name v))).next = h.next + 1 := rfl
      have hmem2 : ∀ a < h.next, ((h.alloc (.dictQ base_params)).2.write
          (h.alloc (.dictQ base_params)).1
          (.dictQ (dictSet base_params param_name v))).mem a = h.mem a := by
        intro a ha
        show (if a = h.next then _ else if a = h.next then _ else h.mem a) =
          h.mem a
        rw [if_neg (by omega), if_neg (by omega)]
      dsimp only
      cases calcFromDict (dictSet base_params param_name v) with
      | error e => exact ⟨by rw [hnext2]; omega, hmem2⟩
      | ok liability_res =>
        dsimp only
        cases calcFromDict base_params with
        | error e => exact ⟨by rw [hnext2]; omega, hmem2⟩
        | ok base_res =>
          dsimp only
          by_cases hzero : base_res.1 = 0
          · rw [if_pos hzero]
            exact ⟨by rw [hnext2]; omega, hmem2⟩
          · rw [if_neg hzero]
            rcases ih (((h.alloc (.dictQ base_params)).2.write
                (h.alloc (.dictQ base_params)).1
                (.dictQ (dictSet base_params param_name v))))
              (results ++
                [{ parameter := param_name, value := v,
                   liability := liability_res.1,
                   change_percent :=
                     (liability_res.1 - base_res.1) / base_res.1 * 100 }])
              with ⟨ihn, ihm⟩
            refine ⟨by rw [hnext2] at ihn; omega, fun a ha => ?_⟩
            rw [ihm a (by rw [hnext2]; omega), hmem2 a ha]
    | dictSweep s => exact ⟨le_rfl, fun a _ => rfl⟩
    | undef => exact ⟨le_rfl, fun a _ => rfl⟩

theorem sensOuter_frame (baseAddr : ℕ) :
    ∀ (sweep : List (String × List ℚ)) (h : Heap) (results : List SensRow),
      h.next ≤ (sensOuter baseAddr sweep h results).2.next ∧
      ∀ a < h.next,
        (sensOuter baseAddr sweep h results).2.mem a = h.mem a := by
  intro sweep
  induction sweep with
  | nil => intro h results; exact ⟨le_rfl, fun a _ => rfl⟩
  | cons p rest ih =>
    intro h results
    rw [sensOuter]
    rcases sensInner_frame baseAddr p.1 p.2 h results with ⟨hn, hm⟩
    cases hres : sensInner baseAddr p.1 p.2 h results with
    | mk r h2 =>
      rw [hres] at hn hm
      cases r with
      | ok results2 =>
        rcases ih h2 results2 with ⟨ihn, ihm⟩
        exact ⟨le_trans hn ihn, fun a ha =>
          by rw [ihm a (lt_of_lt_of_le ha hn), hm a ha]⟩
      | error e => exact ⟨hn, hm⟩

/-- C10: sensitivity_analysis never mutates the caller's base_params dict or
the caller's sensitivity_params sweep dict: each overridden parameter value
is written only to the freshly allocated copy, so after the call every
caller-visible heap object — in particular both argument dicts — is
unchanged. -/
theorem C10_sensitivity_no_mutation (h : Heap) (baseAddr sweepAddr : ℕ)
    (hb : baseAddr < h.next) (hs : sweepAddr < h.next) :
    (sensitivity_analysis h baseAddr sweepAddr).2.mem baseAddr =
      h.mem baseAddr ∧
    (sensitivity_analysis h baseAddr sweepAddr).2.mem sweepAddr =
      h.mem sweepAddr := by
  rw [sensitivity_analysis]
  cases hsw : h.mem sweepAddr with
  | dictSweep sweep =>
    dsimp only
    rcases sensOuter_frame baseAddr sweep h [] with ⟨_, hm⟩
    exact ⟨hm baseAddr hb, (hm sweepAddr hs).trans hsw⟩
  | dictQ d => exact ⟨rfl, hsw⟩
  | undef => exact ⟨rfl, hsw⟩

/-- A concrete two-object heap: address 0 holds a base_params dict, address 1
holds a sweep dict. -/
def exampleHeap : Heap :=
  ⟨2, fun a =>
    if a = 0 then
      .dictQ [("total_jemaah", 100), ("inflasi_saudi", 3), ("kurs_usd", 15500),
              ("biaya_awal", 10), ("tingkat_diskonto", 5),
              ("tahun_proyeksi", 2), ("depresiasi_rupiah", 3)]
    else if a = 1 then .dictSweep [("inflasi_saudi", [2, 4])]
    else .undef⟩

/-- Witness for C10 on the concrete two-object heap. -/
theorem C10_sensitivity_no_mutation_witness :
    (sensitivity_analysis exampleHeap 0 1).2.mem 0 = exampleHeap.mem 0 ∧
    (sensitivity_analysis exampleHeap 0 1).2.mem 1 = exampleHeap.mem 1 :=
  C10_sensitivity_no_mutation exampleHeap 0 1 (by decide) (by decide)

end UtilsCalculations

end Astha
